import Mathlib

/-!
Shallow embedding of the activity orchestration and retry/throttling engine
of the Microsoft-Rewards-Bot repository.

Sources embedded:
* `src/util/state/ActivityStatsTracker.ts` — per-activity-type statistics.
* `src/browser/Browser.ts` (`AxiosClient.request`, `isRetryableError`,
  `isProxyAuthError`) — bounded-retry request wrapper.
* `src/Workers.ts` (`Workers.solveActivities`, `manageTabLifecycle`,
  `buildActivitySelector`, `prepareActivityPage`, `executeActivity`,
  `applyThrottle`, `doDailySet`, `doPunchCard`) — the activity runner.
* `AdaptiveThrottler`, `JobState` and the SmartWait helpers are not part of
  the provided sources; they are modelled from the specification where noted.

Machine numbers are modelled as `Nat`/`Int`/`ℚ`; timestamps and durations are
abstract `Nat` parameters; asynchronous effects are modelled by explicit state
passing, and code that may throw returns `Except`.
-/

namespace RewardsBot

/-- Case-sensitive substring test on character lists: `hasSubList needle hay`
is true when `needle` occurs contiguously in `hay`.  Used to embed the
JavaScript `String.prototype.includes` and the regex tests of the source. -/
def hasSubList (needle : List Char) : List Char → Bool
  | [] => needle.isEmpty
  | c :: rest => needle.isPrefixOf (c :: rest) || hasSubList needle rest

/-- `includes hay needle` embeds JavaScript `hay.includes(needle)`. -/
def includes (hay needle : String) : Bool :=
  hasSubList needle.toList hay.toList

/-- ASCII lower-casing character by character, embedding the JavaScript
`toLowerCase()` calls of the source (which are applied to ASCII names and
error messages). -/
def lowerStr (s : String) : String :=
  String.mk (s.data.map Char.toLower)

/-- ASCII upper-casing character by character, embedding the JavaScript
`toUpperCase()` normalization of `ActivityStatsTracker`. -/
def upperStr (s : String) : String :=
  String.mk (s.data.map Char.toUpper)

/-! ## ActivityStatsTracker (src/util/state/ActivityStatsTracker.ts) -/

/-- Embeds the `ActivityStat` record of `ActivityStatsTracker.ts`:
attempt, success and failure counters plus cumulative duration and the last
error message.  `lastAttemptTime` is kept as a plain `Nat` timestamp. -/
structure ActivityStat where
  attempts : Nat
  successes : Nat
  failures : Nat
  totalDurationMs : Nat
  lastError : Option String
  lastAttemptTime : Nat
  deriving Repr, DecidableEq

/-- The tracker's `Map<string, ActivityStat>` is embedded as an association
list from normalized (upper-cased) type keys to stat records. -/
abbrev TrackerState := List (String × ActivityStat)

/-- Lookup in the association list, embedding `this.stats.get(key)`. -/
def getStat : TrackerState → String → Option ActivityStat
  | [], _ => none
  | (k, v) :: rest, key => if k = key then some v else getStat rest key

/-- Update-or-insert in the association list, embedding the mutation of the
record stored under `key` (inserting when absent, as `startActivity` does). -/
def setStat : TrackerState → String → ActivityStat → TrackerState
  | [], key, v => [(key, v)]
  | (k, w) :: rest, key, v =>
      if k = key then (k, v) :: rest else (k, w) :: setStat rest key v

/-- Embeds `ActivityStatsTracker.startActivity`: normalizes the type with
`toUpperCase`, creates a zeroed record when absent, then increments
`attempts` and stamps `lastAttemptTime` with the start time. -/
def startActivity (state : TrackerState) (activityType : String)
    (startTime : Nat) : TrackerState :=
  let key := upperStr activityType
  match getStat state key with
  | none =>
      setStat state key
        { attempts := 1, successes := 0, failures := 0, totalDurationMs := 0,
          lastError := none, lastAttemptTime := startTime }
  | some s =>
      setStat state key
        { s with attempts := s.attempts + 1, lastAttemptTime := startTime }

/-- Embeds `ActivityStatsTracker.recordSuccess`: when a record exists for the
normalized type key, increments `successes` and adds the elapsed duration;
otherwise the state is untouched (the source's `if (stat)` guard). -/
def recordSuccess (state : TrackerState) (activityType : String)
    (duration : Nat) : TrackerState :=
  let key := upperStr activityType
  match getStat state key with
  | none => state
  | some s =>
      setStat state key
        { s with successes := s.successes + 1,
                 totalDurationMs := s.totalDurationMs + duration }

/-- Embeds `ActivityStatsTracker.recordFailure`: when a record exists for the
normalized type key, increments `failures`, adds the duration, and updates
`lastError` when an error is supplied; otherwise the state is untouched. -/
def recordFailure (state : TrackerState) (activityType : String)
    (duration : Nat) (error : Option String) : TrackerState :=
  let key := upperStr activityType
  match getStat state key with
  | none => state
  | some s =>
      setStat state key
        { s with failures := s.failures + 1,
                 totalDurationMs := s.totalDurationMs + duration,
                 lastError := match error with
                   | some e => some e
                   | none => s.lastError }

/-- Embeds `ActivityStatsTracker.reset`: `this.stats.clear()`. -/
def resetStats (_ : TrackerState) : TrackerState := []

/-- Embeds `ActivityStatsTracker.getFailureRate`: `0` when the type is
unknown or has no attempts, otherwise `failures / attempts` as a rational. -/
def getFailureRate (state : TrackerState) (activityType : String) : ℚ :=
  match getStat state (upperStr activityType) with
  | none => 0
  | some s => if s.attempts = 0 then 0 else (s.failures : ℚ) / (s.attempts : ℚ)

/-- Embeds `ActivityStatsTracker.getAverageDuration`: `0` when the type is
unknown or has no attempts, otherwise `totalDurationMs / attempts`. -/
def getAverageDuration (state : TrackerState) (activityType : String) : ℚ :=
  match getStat state (upperStr activityType) with
  | none => 0
  | some s =>
      if s.attempts = 0 then 0 else (s.totalDurationMs : ℚ) / (s.attempts : ℚ)

/-- One operation of the tracker's public mutating interface. -/
inductive StatsOp where
  | start (t : String) (time : Nat)
  | recSuccess (t : String) (duration : Nat)
  | recFailure (t : String) (duration : Nat) (error : Option String)
  | clear
  deriving Repr

/-- Applies one tracker operation to the state. -/
def applyOp (state : TrackerState) : StatsOp → TrackerState
  | .start t time => startActivity state t time
  | .recSuccess t d => recordSuccess state t d
  | .recFailure t d e => recordFailure state t d e
  | .clear => resetStats state

/-- Applies a sequence of tracker operations from left to right. -/
def applyOps (state : TrackerState) : List StatsOp → TrackerState
  | [] => state
  | op :: ops => applyOps (applyOp state op) ops

/-- Decidable check of the per-type counter invariant
`successes + failures ≤ attempts` over all records of the state. -/
def invHolds : TrackerState → Bool
  | [] => true
  | (_, s) :: rest => decide (s.successes + s.failures ≤ s.attempts) && invHolds rest

/-- A record operation is admissible when the targeted record (if any) still
has an unmatched attempt: `successes + failures < attempts`. -/
def pendingOk (state : TrackerState) (t : String) : Bool :=
  match getStat state (upperStr t) with
  | none => true
  | some s => s.successes + s.failures < s.attempts

/-- A trace is well-paired from `state` when every `recSuccess`/`recFailure`
is issued while its type still has an unmatched `startActivity`. -/
def goodFrom (state : TrackerState) : List StatsOp → Bool
  | [] => true
  | op :: ops =>
      (match op with
        | .recSuccess t _ => pendingOk state t
        | .recFailure t _ _ => pendingOk state t
        | _ => true) && goodFrom (applyOp state op) ops

/-! ## AxiosClient retry wrapper (src/browser/Browser.ts) -/

/-- Embeds the shape of an error caught by `AxiosClient.request`: the Node
error `code`, the nested `cause.code`, the `message`, and the HTTP response
status (`err.response?.status`). -/
structure AxErr where
  code : Option String
  causeCode : Option String
  message : Option String
  status : Option Nat
  deriving Repr, DecidableEq

/-- Embeds `AxiosClient.isProxyAuthError`:
`axiosErr?.response?.status === 407`. -/
def isProxyAuthError (e : AxErr) : Bool :=
  e.status = some 407

/-- Embeds the JavaScript truthy-or `e.code || e.cause?.code`: the empty
string and `undefined` are falsy. -/
def errCode (e : AxErr) : Option String :=
  match e.code with
  | some c => if c = "" then e.causeCode else some c
  | none => e.causeCode

/-- Embeds `String(e.message || '')`. -/
def errMessage (e : AxErr) : String :=
  match e.message with
  | some m => m
  | none => ""

/-- Embeds `AxiosClient.isRetryableError`: the resolved code is one of the
five network error codes, or the message matches `/proxy|tunnel|socks|agent/i`
(modelled as a case-insensitive substring test). -/
def isRetryableError (e : AxErr) : Bool :=
  let code := errCode e
  let isNetworkError :=
    code = some "ECONNREFUSED" || code = some "ETIMEDOUT" ||
    code = some "ECONNRESET" || code = some "ENOTFOUND" || code = some "EPIPE"
  let msg := lowerStr (errMessage e)
  let isProxyIssue :=
    includes msg "proxy" || includes msg "tunnel" ||
    includes msg "socks" || includes msg "agent"
  isNetworkError || isProxyIssue

/-- `maxAttempts` constant of `AxiosClient.request`. -/
def maxAttempts : Nat := 2

/-- Outcome of `AxiosClient.request`: a successful response, a rejection with
the error thrown by an attempt, or the wrapped proxy-authentication error the
wrapper fabricates for HTTP 407 (`throw new Error('Proxy authentication
failed. ...')`). -/
inductive ReqResult where
  | ok (response : Nat)
  | err (e : AxErr)
  | proxyAuthWrapped (details : String)
  deriving Repr, DecidableEq

/-- Observable event of one `request` run: an attempt with its 1-based
index, or a backoff sleep with its duration in milliseconds. -/
inductive ReqEvent where
  | attempt (n : Nat)
  | sleep (ms : Nat)
  deriving Repr, DecidableEq

/-- Embeds the `for (let attempt = 1; attempt <= maxAttempts; attempt++)`
loop of `AxiosClient.request`.  `f n` is the outcome of the `n`-th call to
`this.instance.request(config)`; `fuel` counts the remaining loop
iterations and `lastError` models the `lastError` local (thrown when the
loop exits, which the proofs show is unreachable).  Each failed attempt is
classified: HTTP 407 is wrapped and thrown; a retryable error with attempts
remaining sleeps `1000 * 2^(attempt-1)` ms and continues; anything else is
rethrown. -/
def requestAux (f : Nat → Except AxErr Nat) (lastError : ReqResult) :
    Nat → Nat → ReqResult × List ReqEvent
  | _, 0 => (lastError, [])
  | attempt, fuel + 1 =>
      match f attempt with
      | .ok r => (.ok r, [.attempt attempt])
      | .error e =>
          if isProxyAuthError e then
            (.proxyAuthWrapped (errMessage e), [.attempt attempt])
          else if isRetryableError e && attempt < maxAttempts then
            let rest := requestAux f (.err e) (attempt + 1) fuel
            (rest.1, .attempt attempt :: .sleep (1000 * 2 ^ (attempt - 1)) :: rest.2)
          else
            (.err e, [.attempt attempt])

/-- Embeds `AxiosClient.request` (the non-`bypassProxy` path): runs the
attempt loop from attempt 1 with `maxAttempts` iterations, `lastError`
initialized to the placeholder error of line 583. -/
def request (f : Nat → Except AxErr Nat) : ReqResult × List ReqEvent :=
  requestAux f
    (.err { code := none, causeCode := none,
            message := some "Request failed with unknown error", status := none })
    1 maxAttempts

/-- Number of attempt events in a request trace. -/
def countAttempts : List ReqEvent → Nat
  | [] => 0
  | .attempt _ :: rest => countAttempts rest + 1
  | .sleep _ :: rest => countAttempts rest

/-! ## AdaptiveThrottler (modelled) and Workers.applyThrottle -/

/-- Modelled from the spec: the repository's `AdaptiveThrottler.ts` is not
among the provided sources.  §4.2: "Maintains a delay multiplier increased
after failures and decreased after successes, bounded within a fixed range".
The fixed range and the step sizes are left as configuration parameters. -/
structure ThrottleCfg where
  minMult : ℚ
  maxMult : ℚ
  upStep : ℚ
  downStep : ℚ
  deriving Repr, DecidableEq

/-- Modelled from the spec: the throttler's state, a delay multiplier plus
the history of recorded outcomes (`true` = success). -/
structure Throttler where
  multiplier : ℚ
  history : List Bool
  deriving Repr, DecidableEq

/-- Modelled from the spec: clamping of the multiplier to the fixed
`[minMult, maxMult]` range. -/
def throttleClamp (cfg : ThrottleCfg) (m : ℚ) : ℚ :=
  max cfg.minMult (min cfg.maxMult m)

/-- Modelled from the spec: `AdaptiveThrottler.record(success)` moves the
multiplier down by `downStep` after a success and up by `upStep` after a
failure, clamped to the fixed `[minMult, maxMult]` range. -/
def throttleRecord (cfg : ThrottleCfg) (th : Throttler) (success : Bool) :
    Throttler :=
  let m :=
    if success then throttleClamp cfg (th.multiplier - cfg.downStep)
    else throttleClamp cfg (th.multiplier + cfg.upStep)
  { multiplier := m, history := success :: th.history }

/-- Modelled from the spec: `AdaptiveThrottler.getDelayMultiplier` returns
the current multiplier. -/
def getDelayMultiplier (th : Throttler) : ℚ :=
  th.multiplier

/-- Records a whole sequence of outcomes, oldest first. -/
def throttleRecordAll (cfg : ThrottleCfg) (th : Throttler) :
    List Bool → Throttler
  | [] => th
  | b :: bs => throttleRecordAll cfg (throttleRecord cfg th b) bs

/-- Embeds `Workers.applyThrottle`: the delay window passed to
`waitRandom` is `(Math.floor(min * multiplier), Math.floor(max * multiplier))`. -/
def applyThrottleWindow (th : Throttler) (minD maxD : Nat) : ℤ × ℤ :=
  let multiplier := getDelayMultiplier th
  (⌊(minD : ℚ) * multiplier⌋, ⌊(maxD : ℚ) * multiplier⌋)

/-! ## Workers.solveActivities (src/Workers.ts) -/

/-- Embeds the fields of `PromotionalItem`/`MorePromotion` that the runner
reads.  An absent `offerId` is modelled by the empty string, matching the
source's truthiness test `if (!activity.offerId)`. -/
structure Activity where
  name : String
  offerId : String
  title : String
  complete : Bool
  pointProgressMax : Nat
  promotionType : String
  deriving Repr, DecidableEq

/-- Embeds the `for (const activity of activities)` loop of
`Workers.solveActivities` with its per-iteration `try`/`catch`: the loop
body (tab management, throttled delays, selector resolution, page
preparation and activity execution) is abstracted as `body`, which may
update the throttler or throw.  A thrown error is caught inside the loop
body, logged, and recorded as a failure on the throttler
(`throttle.record(false)`); the loop then continues with the next activity.
Returns each visited activity paired with its outcome, in order, plus the
final throttler. -/
def solveActivities (cfg : ThrottleCfg)
    (body : Activity → Throttler → Except String Throttler) :
    List Activity → Throttler → List (Activity × Except String Unit) × Throttler
  | [], th => ([], th)
  | a :: rest, th =>
      match body a th with
      | .ok th' =>
          let r := solveActivities cfg body rest th'
          ((a, .ok ()) :: r.1, r.2)
      | .error e =>
          let th' := throttleRecord cfg th false
          let r := solveActivities cfg body rest th'
          ((a, .error e) :: r.1, r.2)

/-! ## Workers.manageTabLifecycle and doPunchCard tab cap -/

/-- Embeds the page-count effect of `Workers.manageTabLifecycle`: when the
context holds more than 3 pages the current page is closed (count drops by
one); navigation back to the initial URL does not change the count.  The
post-punch-card check in `Workers.doPunchCard` (`if (pages.length > 3)
await page.close()`) has the same effect on the count. -/
def manageTabLifecycleCount (pages : Nat) : Nat :=
  if pages > 3 then pages - 1 else pages

/-- Tab count over one loop iteration of `Workers.solveActivities`: the
lifecycle check runs before the activity, then processing the activity may
open `opened` new tabs. -/
def tabStep (pages opened : Nat) : Nat :=
  manageTabLifecycleCount pages + opened

/-- Tab count after a run in which the `i`-th activity opens `opens[i]` new
tabs, starting from `pages` open pages. -/
def tabRun : List Nat → Nat → Nat
  | [], pages => pages
  | o :: os, pages => tabRun os (tabStep pages o)

/-! ## Workers.buildActivitySelector -/

/-- Embeds `ACTIVITY_SELECTORS.byName`. -/
def selectorByName (name : String) : String :=
  "[data-bi-id^=\"" ++ name ++ "\"] .pointLink:not(.contentContainer .pointLink)"

/-- Embeds `ACTIVITY_SELECTORS.byOfferId`. -/
def selectorByOfferId (offerId : String) : String :=
  "[data-bi-id^=\"" ++ offerId ++ "\"] .pointLink:not(.contentContainer .pointLink)"

/-- Embeds `Workers.buildActivitySelector` for a non-punch-card activity
(the punch-card branch delegates to `getPunchCardActivity` and is outside
this model): when the lower-cased name contains `membercenter` or
`exploreonbing` the name-based selector is returned; otherwise, when
`offerId` is falsy the name-based selector is the fallback; otherwise the
offer-id selector is returned. -/
def buildActivitySelector (a : Activity) : String :=
  let name := lowerStr a.name
  if includes name "membercenter" || includes name "exploreonbing" then
    selectorByName a.name
  else if a.offerId = "" then
    selectorByName a.name
  else
    selectorByOfferId a.offerId

/-! ## Workers.prepareActivityPage and Workers.executeActivity -/

/-- `TIMEOUTS.DASHBOARD_WAIT` (10 s), from `src/constants.ts` as documented
in the repository. -/
def DASHBOARD_WAIT : Nat := 10000

/-- Timeout budget of the bounded element wait in `Workers.executeActivity`:
`initialTimeoutMs: 1000` plus `extendedTimeoutMs: 3000`.  `waitForElementSmart`
itself is modelled from the spec (SmartWait is not among the provided
sources): a bounded wait that reports whether the element attached within
the budget. -/
def elementWaitBudget : Nat := 1000 + 3000

/-- Embeds `Workers.prepareActivityPage`: the network-idle wait runs under a
bounded timeout (`TIMEOUTS.DASHBOARD_WAIT`) and a timeout rejection is
caught by `.catch(logError(...))`, after which execution continues with
`humanizePage` and a throttled delay.  `idleOutcome` is the outcome of the
wait (`some msg` = rejection).  Returns the overall outcome (always `ok`)
and the log entries produced by the catch handler. -/
def prepareActivityPage (idleOutcome : Option String) :
    Except String Unit × List String :=
  match idleOutcome with
  | some e => (.ok (), ["Network idle wait failed: " ++ e])
  | none => (.ok (), [])

/-- Embeds `Workers.executeActivity`.  Inputs abstract the environment:
`startTime`/`duration` stand for the `Date.now()` stamps, `elemFound` is the
`found` flag of the bounded element wait, `clickErr` is the outcome of the
click (`some msg` = the click threw), and `runErr` the outcome of the
retried, timeout-raced activity handler.  Returns the outcome
(`.error` = the function threw), the updated stats tracker, and the number
of clicks performed.  When the element is not found within the budget the
function logs a skip, records a success, and returns without clicking and
without throwing. -/
def executeActivity (stats : TrackerState) (activityType : String)
    (startTime duration : Nat) (elemFound : Bool)
    (clickErr : Option String) (runErr : Option String) :
    Except String Unit × TrackerState × Nat :=
  let stats1 := startActivity stats activityType startTime
  if !elemFound then
    (.ok (), recordSuccess stats1 activityType duration, 0)
  else
    match clickErr with
    | some msg =>
        (.error ("Activity click failed: " ++ msg),
         recordFailure stats1 activityType duration (some msg), 1)
    | none =>
        match runErr with
        | some msg =>
            (.error msg, recordFailure stats1 activityType duration (some msg), 1)
        | none =>
            (.ok (), recordSuccess stats1 activityType duration, 1)

/-! ## JobState (modelled) and Workers.doDailySet -/

/-- Modelled from the spec: `JobState.ts` is not among the provided sources.
§6: "a job-state store exposing `isDone`/`markDone` per (account, day,
activity-id)".  The store is the set of recorded triples. -/
abbrev JobStateStore := List (String × String × String)

/-- Modelled from the spec: `isDone(email, day, offerId)` tests whether the
triple was recorded. -/
def isDone (store : JobStateStore) (email day offerId : String) : Bool :=
  match store with
  | [] => false
  | t :: rest =>
      if t = (email, day, offerId) then true else isDone rest email day offerId

/-- Modelled from the spec: `markDone(email, day, offerId)` records the
triple. -/
def markDone (store : JobStateStore) (email day offerId : String) :
    JobStateStore :=
  (email, day, offerId) :: store

/-- Embeds the selection of `Workers.doDailySet`: today's activities are
filtered to those not complete with `pointProgressMax > 0`, then — unless
the job-state feature is disabled (`config.jobState?.enabled === false`) —
to those not recorded as done for (account email, today, offerId). -/
def dailySetUncompleted (jobStateEnabled : Bool) (store : JobStateStore)
    (email today : String) (todayData : List Activity) : List Activity :=
  (todayData.filter fun x => !x.complete && decide (0 < x.pointProgressMax)).filter
    fun x =>
      if jobStateEnabled = false then true
      else !(isDone store email today x.offerId)

/-- Embeds the post-solve marking loop of `Workers.doDailySet`: when the
job-state feature is enabled, every selected activity's offerId is marked
done for (email, today). -/
def doDailySetStore (jobStateEnabled : Bool) (store : JobStateStore)
    (email today : String) (selected : List Activity) : JobStateStore :=
  if jobStateEnabled then
    selected.foldl (fun s a => markDone s email today a.offerId) store
  else store

/-! ## Concrete demonstration inputs shared by witness theorems -/

/-- A concrete incomplete quiz activity with an offerId. -/
def demoActivity1 : Activity :=
  { name := "quiz_daily", offerId := "OFFER_A", title := "Daily quiz",
    complete := false, pointProgressMax := 10, promotionType := "quiz" }

/-- A concrete incomplete url-reward activity. -/
def demoActivity2 : Activity :=
  { name := "click_reward", offerId := "OFFER_B", title := "Click away",
    complete := false, pointProgressMax := 5, promotionType := "urlreward" }

/-- A concrete completed activity. -/
def demoActivity3 : Activity :=
  { name := "done_item", offerId := "OFFER_C", title := "Old news",
    complete := true, pointProgressMax := 5, promotionType := "quiz" }

/-- A concrete throttler configuration. -/
def cfgDemo : ThrottleCfg :=
  { minMult := 1/2, maxMult := 3, upStep := 1/4, downStep := 1/10 }

/-- A concrete throttler state at the neutral multiplier. -/
def thDemo : Throttler := { multiplier := 1, history := [] }

/-- A loop body that throws on every activity. -/
def bodyDemo : Activity → Throttler → Except String Throttler :=
  fun _ _ => .error "boom"

/-! ## C1: solveActivities isolates per-activity failures -/

/-- C1: every activity of the list is visited in order no matter how many
loop bodies throw, and a thrown body error is caught inside the loop: the
iteration yields the caught error, records a failure on the throttler
(`throttle.record(false)`), and the loop continues with the remaining
activities. -/
theorem solveActivities_visits_all (cfg : ThrottleCfg)
    (body : Activity → Throttler → Except String Throttler)
    (acts : List Activity) (th : Throttler) :
    ((solveActivities cfg body acts th).1.map Prod.fst = acts) ∧
    (∀ a rest th1 e, body a th1 = .error e →
       solveActivities cfg body (a :: rest) th1 =
         ((a, Except.error e) ::
            (solveActivities cfg body rest (throttleRecord cfg th1 false)).1,
          (solveActivities cfg body rest (throttleRecord cfg th1 false)).2)) := by
  constructor
  · induction acts generalizing th with
    | nil => simp [solveActivities]
    | cons a rest ih =>
        cases h : body a th with
        | ok th' => simp [solveActivities, h, ih]
        | error e => simp [solveActivities, h, ih]
  · intro a rest th1 e h
    simp [solveActivities, h]

/-- Witness for C1 at a concrete two-element batch whose bodies all throw. -/
theorem solveActivities_visits_all_witness :
    ((solveActivities cfgDemo bodyDemo [demoActivity1, demoActivity2] thDemo).1.map
        Prod.fst = [demoActivity1, demoActivity2]) ∧
    solveActivities cfgDemo bodyDemo (demoActivity1 :: [demoActivity2]) thDemo =
      ((demoActivity1, Except.error "boom") ::
         (solveActivities cfgDemo bodyDemo [demoActivity2]
            (throttleRecord cfgDemo thDemo false)).1,
       (solveActivities cfgDemo bodyDemo [demoActivity2]
          (throttleRecord cfgDemo thDemo false)).2) :=
  ⟨(solveActivities_visits_all cfgDemo bodyDemo [demoActivity1, demoActivity2] thDemo).1,
   (solveActivities_visits_all cfgDemo bodyDemo [demoActivity1, demoActivity2]
      thDemo).2 demoActivity1 [demoActivity2] thDemo "boom" rfl⟩

/-! ## C7: selector resolution -/

/-- An activity whose name contains the `membercenter` marker and which
nevertheless carries an offerId. -/
def mcActivity : Activity :=
  { name := "membercenter_weekly", offerId := "OFFER123", title := "MC",
    complete := false, pointProgressMax := 10, promotionType := "urlreward" }

/-- C7 counterexample: for an activity whose name contains `membercenter`,
`buildActivitySelector` returns the name-based selector even though an
offerId identifier is present, so the name-based pattern is not reserved
for the identifier-absent case. -/
theorem buildActivitySelector_counterexample :
    mcActivity.offerId ≠ "" ∧
    buildActivitySelector mcActivity = selectorByName mcActivity.name ∧
    buildActivitySelector mcActivity ≠ selectorByOfferId mcActivity.offerId := by
  refine ⟨by decide, by decide, by decide⟩

/-- C7 (amended): for a non-punch-card activity the selector comes from the
offer-id pattern when an offerId is present and the lower-cased name
contains neither `membercenter` nor `exploreonbing`; the name-based pattern
is used whenever the offerId is absent, and also — regardless of offerId —
when the name contains one of the two markers. -/
theorem buildActivitySelector_resolution (a : Activity) :
    (includes (lowerStr a.name) "membercenter" = false →
     includes (lowerStr a.name) "exploreonbing" = false →
     a.offerId ≠ "" →
     buildActivitySelector a = selectorByOfferId a.offerId) ∧
    (a.offerId = "" → buildActivitySelector a = selectorByName a.name) ∧
    ((includes (lowerStr a.name) "membercenter" = true ∨
      includes (lowerStr a.name) "exploreonbing" = true) →
     buildActivitySelector a = selectorByName a.name) := by
  refine ⟨?_, ?_, ?_⟩
  · intro h1 h2 h3
    simp [buildActivitySelector, h1, h2, h3]
  · intro h
    by_cases hm : includes (lowerStr a.name) "membercenter" = true <;>
      by_cases he : includes (lowerStr a.name) "exploreonbing" = true <;>
        simp_all [buildActivitySelector]
  · intro h
    rcases h with h | h <;> simp [buildActivitySelector, h]

/-- Witness for C7's amended theorem at a marker-free activity carrying an
offerId. -/
theorem buildActivitySelector_resolution_witness :
    buildActivitySelector demoActivity1 = selectorByOfferId demoActivity1.offerId :=
  (buildActivitySelector_resolution demoActivity1).1 (by decide) (by decide) (by decide)

/-! ## C8: bounded waits with graceful fallback -/

/-- C8: when the bounded element wait (1 s initial + 3 s extended budget)
reports the element as not attached, `executeActivity` returns without
clicking and without throwing and records the skipped activity as a success
on the stats tracker; a network-idle wait rejection inside
`prepareActivityPage` is caught and execution continues normally. -/
theorem executeActivity_graceful_timeouts (stats : TrackerState)
    (activityType : String) (startTime duration : Nat)
    (clickErr runErr idleOutcome : Option String) :
    executeActivity stats activityType startTime duration false clickErr runErr =
      (Except.ok (),
       recordSuccess (startActivity stats activityType startTime) activityType duration,
       0) ∧
    (prepareActivityPage idleOutcome).1 = Except.ok () ∧
    elementWaitBudget = 4000 := by
  refine ⟨rfl, ?_, rfl⟩
  cases idleOutcome <;> rfl

/-! ## C10: division-safe stat queries -/

/-- The operation sequence of one `startActivity` followed by two
`recordFailure` calls for the same type. -/
def overRecordedOps : List StatsOp :=
  [StatsOp.start "quiz" 0, StatsOp.recFailure "quiz" 1 none,
   StatsOp.recFailure "quiz" 1 none]

/-- C10 counterexample: the tracker state reached by one `startActivity`
and two `recordFailure` calls has `failures = 2` against `attempts = 1`,
so `getFailureRate` returns `2` — the "value in `[0, 1]`" part of the
claim fails on a reachable state. -/
theorem statQueries_counterexample :
    getFailureRate (applyOps [] overRecordedOps) "quiz" = 2 ∧
    ¬ getFailureRate (applyOps [] overRecordedOps) "quiz" ≤ 1 := by
  have h : getStat (applyOps [] overRecordedOps) (upperStr "quiz") =
      some { attempts := 1, successes := 0, failures := 2,
             totalDurationMs := 2, lastError := none, lastAttemptTime := 0 } := by
    decide
  constructor
  · rw [getFailureRate, h]
    norm_num
  · rw [getFailureRate, h]
    norm_num

/-- C10 (amended): `getFailureRate` and `getAverageDuration` return `0` for
a type that is unknown to the tracker or has a zero attempt count, and
otherwise return `failures / attempts` — a value in `[0, 1]` whenever the
record satisfies `failures ≤ attempts`, though unmatched record operations
can drive it above 1 — and `totalDurationMs / attempts` respectively, so no
division by a zero attempt count ever occurs. -/
theorem statQueries_division_safe (state : TrackerState) (t : String) :
    (getStat state (upperStr t) = none →
       getFailureRate state t = 0 ∧ getAverageDuration state t = 0) ∧
    (∀ s, getStat state (upperStr t) = some s → s.attempts = 0 →
       getFailureRate state t = 0 ∧ getAverageDuration state t = 0) ∧
    (∀ s, getStat state (upperStr t) = some s → s.attempts ≠ 0 →
       getFailureRate state t = (s.failures : ℚ) / (s.attempts : ℚ) ∧
       getAverageDuration state t = (s.totalDurationMs : ℚ) / (s.attempts : ℚ) ∧
       (s.failures ≤ s.attempts →
          0 ≤ getFailureRate state t ∧ getFailureRate state t ≤ 1)) := by
  refine ⟨?_, ?_, ?_⟩
  · intro h
    simp [getFailureRate, getAverageDuration, h]
  · intro s h h0
    simp [getFailureRate, getAverageDuration, h, h0]
  · intro s h h0
    have hpos : (0 : ℚ) < (s.attempts : ℚ) := by
      exact_mod_cast Nat.pos_of_ne_zero h0
    have hrate : getFailureRate state t = (s.failures : ℚ) / (s.attempts : ℚ) := by
      simp [getFailureRate, h, h0]
    refine ⟨hrate, by simp [getAverageDuration, h, h0], ?_⟩
    intro hle
    constructor
    · rw [hrate]
      positivity
    · rw [hrate, div_le_one hpos]
      exact_mod_cast hle

/-- A concrete stat record with one failure in four attempts. -/
def quizStat : ActivityStat :=
  { attempts := 4, successes := 3, failures := 1,
    totalDurationMs := 2000, lastError := none, lastAttemptTime := 0 }

/-- A concrete one-entry tracker state. -/
def demoTracker : TrackerState := [("QUIZ", quizStat)]

/-- Witness for C10 on a concrete tracker state. -/
theorem statQueries_division_safe_witness :
    (getStat demoTracker (upperStr "poll") = none ∧
      getFailureRate demoTracker "poll" = 0) ∧
    (getFailureRate demoTracker "quiz" = (1 : ℚ) / 4 ∧
      getFailureRate demoTracker "quiz" ≤ 1) := by
  have hnone := (statQueries_division_safe demoTracker "poll").1 (by decide)
  have hsome := (statQueries_division_safe demoTracker "quiz").2.2 quizStat
    (by decide) (by decide)
  refine ⟨⟨by decide, hnone.1⟩, ⟨?_, (hsome.2.2 (by decide)).2⟩⟩
  rw [hsome.1]
  norm_num [quizStat]

/-! ## C9: tracker counter invariant -/

/-- Reading back the key just written by `setStat` yields the new value;
other keys are unaffected. -/
theorem getStat_setStat (st : TrackerState) (k k2 : String) (v : ActivityStat) :
    getStat (setStat st k v) k2 = if k = k2 then some v else getStat st k2 := by
  induction st with
  | nil => simp [setStat, getStat, eq_comm]
  | cons hd rest ih =>
      obtain ⟨k0, w⟩ := hd
      by_cases h0 : k0 = k
      · subst h0
        by_cases h2 : k0 = k2 <;> simp [setStat, getStat, h2]
      · by_cases h2 : k0 = k2
        · subst h2
          have hkk : ¬ k = k0 := fun h => h0 h.symm
          simp [setStat, getStat, h0, hkk]
        · simp [setStat, getStat, h0, h2, ih]

/-- `setStat` preserves the counter invariant when the written record
satisfies it. -/
theorem invHolds_setStat (st : TrackerState) (k : String) (v : ActivityStat)
    (hst : invHolds st = true)
    (hv : v.successes + v.failures ≤ v.attempts) :
    invHolds (setStat st k v) = true := by
  induction st with
  | nil => simp [setStat, invHolds, hv]
  | cons hd rest ih =>
      obtain ⟨k0, w⟩ := hd
      simp only [invHolds, Bool.and_eq_true, decide_eq_true_eq] at hst
      by_cases h0 : k0 = k
      · simp [setStat, h0, invHolds, hv, hst.2]
      · simp [setStat, h0, invHolds, hst.1, ih hst.2]

/-- Any record reachable through `getStat` of an invariant state satisfies
the counter inequality. -/
theorem invHolds_getStat (st : TrackerState) (k : String) (s : ActivityStat)
    (hst : invHolds st = true) (h : getStat st k = some s) :
    s.successes + s.failures ≤ s.attempts := by
  induction st with
  | nil => simp [getStat] at h
  | cons hd rest ih =>
      obtain ⟨k0, w⟩ := hd
      simp only [invHolds, Bool.and_eq_true, decide_eq_true_eq] at hst
      by_cases h0 : k0 = k
      · simp [getStat, h0] at h
        exact h ▸ hst.1
      · simp [getStat, h0] at h
        exact ih hst.2 h

/-- One admissible operation preserves the counter invariant. -/
theorem invHolds_applyOp (st : TrackerState) (op : StatsOp)
    (hst : invHolds st = true)
    (hop : (match op with
             | .recSuccess t _ => pendingOk st t
             | .recFailure t _ _ => pendingOk st t
             | _ => true) = true) :
    invHolds (applyOp st op) = true := by
  cases op with
  | start t time =>
      simp only [applyOp, startActivity]
      cases h : getStat st (upperStr t) with
      | none => exact invHolds_setStat st _ _ hst (by simp)
      | some s =>
          have := invHolds_getStat st _ s hst h
          exact invHolds_setStat st _ _ hst (by simp; omega)
  | recSuccess t d =>
      simp only [applyOp, recordSuccess]
      cases h : getStat st (upperStr t) with
      | none => exact hst
      | some s =>
          simp only [pendingOk, h, decide_eq_true_eq] at hop
          exact invHolds_setStat st _ _ hst (by simp; omega)
  | recFailure t d e =>
      simp only [applyOp, recordFailure]
      cases h : getStat st (upperStr t) with
      | none => exact hst
      | some s =>
          simp only [pendingOk, h, decide_eq_true_eq] at hop
          exact invHolds_setStat st _ _ hst (by simp; omega)
  | clear => simp [applyOp, resetStats, invHolds]

/-- C9 counterexample: the tracker does not guard against more outcome
records than prior `startActivity` calls, so the sequence
`start, recordSuccess, recordSuccess` on one type drives `successes` to 2
while `attempts` stays at 1, violating `successes + failures ≤ attempts`. -/
theorem trackerInvariant_counterexample :
    invHolds (applyOps []
      [StatsOp.start "quiz" 0, StatsOp.recSuccess "quiz" 5,
       StatsOp.recSuccess "quiz" 5]) = false := by
  decide

/-- C9 (amended): along every operation sequence that is well-paired — each
`recordSuccess`/`recordFailure` is issued only while its type still has an
unmatched `startActivity` (`successes + failures < attempts`) — the
invariant `successes + failures ≤ attempts` holds for every record after
every operation; moreover `recordSuccess` and `recordFailure` for a type
that has no record leave the tracker state unchanged. -/
theorem trackerInvariant (st : TrackerState) (ops : List StatsOp)
    (hst : invHolds st = true) (hops : goodFrom st ops = true) :
    invHolds (applyOps st ops) = true ∧
    (∀ t d e, getStat st (upperStr t) = none →
       recordSuccess st t d = st ∧ recordFailure st t d e = st) := by
  constructor
  · induction ops generalizing st with
    | nil => exact hst
    | cons op rest ih =>
        simp only [goodFrom, Bool.and_eq_true] at hops
        exact ih (applyOp st op) (invHolds_applyOp st op hst hops.1) hops.2
  · intro t d e h
    constructor
    · simp [recordSuccess, h]
    · simp [recordFailure, h]

/-- Witness for C9's amended theorem on a concrete well-paired trace. -/
theorem trackerInvariant_witness :
    (invHolds ([] : TrackerState) = true ∧
      goodFrom []
        [StatsOp.start "quiz" 0, StatsOp.recSuccess "quiz" 5,
         StatsOp.start "quiz" 9, StatsOp.recFailure "quiz" 3 (some "oops")] = true) ∧
    invHolds (applyOps []
      [StatsOp.start "quiz" 0, StatsOp.recSuccess "quiz" 5,
       StatsOp.start "quiz" 9, StatsOp.recFailure "quiz" 3 (some "oops")]) = true ∧
    recordSuccess [] "quiz" 5 = [] :=
  ⟨⟨by decide, by decide⟩,
   (trackerInvariant []
      [StatsOp.start "quiz" 0, StatsOp.recSuccess "quiz" 5,
       StatsOp.start "quiz" 9, StatsOp.recFailure "quiz" 3 (some "oops")]
      (by decide) (by decide)).1,
   ((trackerInvariant []
      [StatsOp.start "quiz" 0, StatsOp.recSuccess "quiz" 5,
       StatsOp.start "quiz" 9, StatsOp.recFailure "quiz" 3 (some "oops")]
      (by decide) (by decide)).2 "quiz" 5 none (by decide)).1⟩

/-! ## C2: throttle multiplier stays within configured bounds -/

/-- Clamping lands in the configured range whenever the range is
non-degenerate. -/
theorem throttleClamp_mem (cfg : ThrottleCfg) (hcfg : cfg.minMult ≤ cfg.maxMult)
    (m : ℚ) :
    cfg.minMult ≤ throttleClamp cfg m ∧ throttleClamp cfg m ≤ cfg.maxMult :=
  ⟨le_max_left _ _, max_le hcfg (min_le_left _ _)⟩

/-- Recording one outcome keeps the multiplier in range. -/
theorem throttleRecord_mem (cfg : ThrottleCfg) (hcfg : cfg.minMult ≤ cfg.maxMult)
    (th : Throttler) (b : Bool) :
    cfg.minMult ≤ (throttleRecord cfg th b).multiplier ∧
    (throttleRecord cfg th b).multiplier ≤ cfg.maxMult := by
  cases b <;> simpa [throttleRecord] using throttleClamp_mem cfg hcfg _

/-- Recording any outcome sequence keeps the multiplier in range. -/
theorem throttleRecordAll_mem (cfg : ThrottleCfg)
    (hcfg : cfg.minMult ≤ cfg.maxMult) (outcomes : List Bool) (th : Throttler)
    (h0 : cfg.minMult ≤ th.multiplier) (h1 : th.multiplier ≤ cfg.maxMult) :
    cfg.minMult ≤ (throttleRecordAll cfg th outcomes).multiplier ∧
    (throttleRecordAll cfg th outcomes).multiplier ≤ cfg.maxMult := by
  induction outcomes generalizing th with
  | nil => exact ⟨h0, h1⟩
  | cons b bs ih =>
      have hb := throttleRecord_mem cfg hcfg th b
      exact ih (throttleRecord cfg th b) hb.1 hb.2

/-- C2: for every success/failure outcome sequence, however long the
streaks, the delay multiplier stays within the configured `[minMult,
maxMult]` bounds, and the `applyThrottle` delay window obtained by
multiplying the base min/max delays by the multiplier (and flooring) stays
between the windows induced by the two bounds. -/
theorem throttleMultiplier_bounded (cfg : ThrottleCfg) (th : Throttler)
    (outcomes : List Bool) (minD maxD : Nat)
    (hcfg : cfg.minMult ≤ cfg.maxMult)
    (h0 : cfg.minMult ≤ th.multiplier) (h1 : th.multiplier ≤ cfg.maxMult) :
    (cfg.minMult ≤ getDelayMultiplier (throttleRecordAll cfg th outcomes) ∧
     getDelayMultiplier (throttleRecordAll cfg th outcomes) ≤ cfg.maxMult) ∧
    (⌊(minD : ℚ) * cfg.minMult⌋ ≤
        (applyThrottleWindow (throttleRecordAll cfg th outcomes) minD maxD).1 ∧
     (applyThrottleWindow (throttleRecordAll cfg th outcomes) minD maxD).1 ≤
        ⌊(minD : ℚ) * cfg.maxMult⌋ ∧
     ⌊(maxD : ℚ) * cfg.minMult⌋ ≤
        (applyThrottleWindow (throttleRecordAll cfg th outcomes) minD maxD).2 ∧
     (applyThrottleWindow (throttleRecordAll cfg th outcomes) minD maxD).2 ≤
        ⌊(maxD : ℚ) * cfg.maxMult⌋) := by
  have hm := throttleRecordAll_mem cfg hcfg outcomes th h0 h1
  refine ⟨hm, ?_, ?_, ?_, ?_⟩ <;>
    · apply Int.floor_le_floor
      first
        | exact mul_le_mul_of_nonneg_left hm.1 (by positivity)
        | exact mul_le_mul_of_nonneg_left hm.2 (by positivity)

/-- Witness for C2 on a concrete configuration, a failure streak followed
by successes, and the base window (800, 1400) of `ACTIVITY_DELAYS`. -/
theorem throttleMultiplier_bounded_witness :
    (cfgDemo.minMult ≤ cfgDemo.maxMult ∧ cfgDemo.minMult ≤ thDemo.multiplier ∧
      thDemo.multiplier ≤ cfgDemo.maxMult) ∧
    (cfgDemo.minMult ≤
        getDelayMultiplier
          (throttleRecordAll cfgDemo thDemo [false, false, false, true, true]) ∧
      getDelayMultiplier
          (throttleRecordAll cfgDemo thDemo [false, false, false, true, true]) ≤
        cfgDemo.maxMult) :=
  ⟨⟨by norm_num [cfgDemo], by norm_num [cfgDemo, thDemo], by norm_num [cfgDemo, thDemo]⟩,
   (throttleMultiplier_bounded cfgDemo thDemo [false, false, false, true, true]
      800 1400 (by norm_num [cfgDemo]) (by norm_num [cfgDemo, thDemo])
      (by norm_num [cfgDemo, thDemo])).1⟩

/-! ## C5: tab count stays bounded -/

/-- C5: when more than 3 pages are observed before an activity, a tab is
closed (`manageTabLifecycle` and the post-punch-card check drop the count
by one); consequently, over a whole run in which each activity opens at
most one new tab, the tab count never exceeds `max` of the initial count
and 4. -/
theorem tabCount_bounded (opens : List Nat) (pages : Nat)
    (h : ∀ o ∈ opens, o ≤ 1) :
    tabRun opens pages ≤ max pages 4 ∧
    (∀ p, 3 < p → manageTabLifecycleCount p = p - 1) := by
  constructor
  · induction opens generalizing pages with
    | nil => exact le_max_left _ _
    | cons o os ih =>
        have ho : o ≤ 1 := h o (List.mem_cons_self o os)
        have hrest : ∀ x ∈ os, x ≤ 1 := fun x hx => h x (List.mem_cons_of_mem o hx)
        have hstep : tabStep pages o ≤ max pages 4 := by
          simp only [tabStep, manageTabLifecycleCount]
          split <;> omega
        calc tabRun (o :: os) pages = tabRun os (tabStep pages o) := rfl
          _ ≤ max (tabStep pages o) 4 := ih (tabStep pages o) hrest
          _ ≤ max pages 4 := by omega
  · intro p hp
    simp [manageTabLifecycleCount, hp]

/-- Witness for C5: a run from 6 open pages where most activities open a
tab, and the closing rule at 5 pages. -/
theorem tabCount_bounded_witness :
    tabRun [1, 0, 1, 1] 6 ≤ max 6 4 ∧ manageTabLifecycleCount 5 = 4 :=
  ⟨(tabCount_bounded [1, 0, 1, 1] 6 (by decide)).1,
   (tabCount_bounded [1, 0, 1, 1] 6 (by decide)).2 5 (by decide)⟩

/-! ## C6: doDailySet selection and job-state marking -/

/-- Membership characterization of the daily-set selection with the
job-state store enabled. -/
theorem mem_dailySetUncompleted (store : JobStateStore) (email today : String)
    (todayData : List Activity) (x : Activity) :
    x ∈ dailySetUncompleted true store email today todayData ↔
      (x ∈ todayData ∧ x.complete = false ∧ 0 < x.pointProgressMax ∧
       isDone store email today x.offerId = false) := by
  simp [dailySetUncompleted, List.mem_filter, Bool.and_eq_true,
    decide_eq_true_eq, Bool.not_eq_true']
  tauto

/-- Marking a triple makes `isDone` report it. -/
theorem isDone_markDone_self (store : JobStateStore) (email day offerId : String) :
    isDone (markDone store email day offerId) email day offerId = true := by
  simp [markDone, isDone]

/-- Marking preserves previously recorded triples. -/
theorem isDone_markDone_mono (store : JobStateStore)
    (email day offerId e2 d2 o2 : String)
    (h : isDone store email day offerId = true) :
    isDone (markDone store e2 d2 o2) email day offerId = true := by
  by_cases hx : (e2, d2, o2) = (email, day, offerId) <;>
    simp [markDone, isDone, hx, h]

/-- The marking fold of `doDailySet` preserves recorded triples. -/
theorem isDone_foldl_mono (l : List Activity) (store : JobStateStore)
    (email day offerId em td : String)
    (h : isDone store email day offerId = true) :
    isDone (l.foldl (fun s a => markDone s em td a.offerId) store)
      email day offerId = true := by
  induction l generalizing store with
  | nil => exact h
  | cons a rest ih => exact ih _ (isDone_markDone_mono store _ _ _ _ _ _ h)

/-- After the marking fold, every member of the folded list is recorded. -/
theorem isDone_foldl_of_mem (l : List Activity) (store : JobStateStore)
    (em td : String) (x : Activity) (hx : x ∈ l) :
    isDone (l.foldl (fun s a => markDone s em td a.offerId) store)
      em td x.offerId = true := by
  induction l generalizing store with
  | nil => cases hx
  | cons a rest ih =>
      rcases List.mem_cons.mp hx with h | h
      · subst h
        exact isDone_foldl_mono rest _ _ _ _ _ _
          (isDone_markDone_self store em td x.offerId)
      · exact ih _ h

/-- C6: with the job-state store enabled, `doDailySet` selects exactly the
activities of today's set that are not complete, have
`pointProgressMax > 0`, and are not recorded as done for (email, today,
offerId); after solving it marks every selected activity done, so each
selected activity is excluded from the selection computed on the next run
over the same dashboard data. -/
theorem dailySet_jobState (store : JobStateStore) (email today : String)
    (todayData : List Activity) :
    (∀ x, x ∈ dailySetUncompleted true store email today todayData ↔
       (x ∈ todayData ∧ x.complete = false ∧ 0 < x.pointProgressMax ∧
        isDone store email today x.offerId = false)) ∧
    (∀ x ∈ dailySetUncompleted true store email today todayData,
       isDone
         (doDailySetStore true store email today
           (dailySetUncompleted true store email today todayData))
         email today x.offerId = true) ∧
    (∀ x ∈ dailySetUncompleted true store email today todayData,
       x ∉ dailySetUncompleted true
         (doDailySetStore true store email today
           (dailySetUncompleted true store email today todayData))
         email today todayData) := by
  refine ⟨fun x => mem_dailySetUncompleted store email today todayData x, ?_, ?_⟩
  · intro x hx
    simp only [doDailySetStore, if_pos rfl]
    exact isDone_foldl_of_mem _ store email today x hx
  · intro x hx hmem
    have hdone : isDone
        (doDailySetStore true store email today
          (dailySetUncompleted true store email today todayData))
        email today x.offerId = true := by
      simp only [doDailySetStore, if_pos rfl]
      exact isDone_foldl_of_mem _ store email today x hx
    have := (mem_dailySetUncompleted _ email today todayData x).mp hmem
    rw [this.2.2.2] at hdone
    cases hdone

/-- Witness for C6 on a concrete dashboard snapshot with one uncompleted
and one completed activity and an empty job-state store. -/
theorem dailySet_jobState_witness :
    (demoActivity1 ∈
        dailySetUncompleted true [] "user@example.com" "2026-10-12"
          [demoActivity1, demoActivity3] ↔
      (demoActivity1 ∈ [demoActivity1, demoActivity3] ∧
        demoActivity1.complete = false ∧ 0 < demoActivity1.pointProgressMax ∧
        isDone [] "user@example.com" "2026-10-12" demoActivity1.offerId = false)) ∧
    isDone
      (doDailySetStore true [] "user@example.com" "2026-10-12"
        (dailySetUncompleted true [] "user@example.com" "2026-10-12"
          [demoActivity1, demoActivity3]))
      "user@example.com" "2026-10-12" demoActivity1.offerId = true ∧
    demoActivity1 ∉
      dailySetUncompleted true
        (doDailySetStore true [] "user@example.com" "2026-10-12"
          (dailySetUncompleted true [] "user@example.com" "2026-10-12"
            [demoActivity1, demoActivity3]))
        "user@example.com" "2026-10-12" [demoActivity1, demoActivity3] :=
  ⟨(dailySet_jobState [] "user@example.com" "2026-10-12"
      [demoActivity1, demoActivity3]).1 demoActivity1,
   (dailySet_jobState [] "user@example.com" "2026-10-12"
      [demoActivity1, demoActivity3]).2.1 demoActivity1 (by decide),
   (dailySet_jobState [] "user@example.com" "2026-10-12"
      [demoActivity1, demoActivity3]).2.2 demoActivity1 (by decide)⟩

/-! ## C3 and C4: the retrying request wrapper -/

/-- Full case characterization of `request`: attempt 1 succeeds; attempt 1
fails with 407 (wrapped); attempt 1 fails non-retryably (rethrown, one
attempt); attempt 1 fails retryably and attempt 2 succeeds after a 1000 ms
backoff; or both fail, attempt 2's error being wrapped when it is a 407 and
rethrown otherwise. -/
theorem request_spec (f : Nat → Except AxErr Nat) :
    (∃ r, f 1 = .ok r ∧ request f = (.ok r, [.attempt 1])) ∨
    (∃ e, f 1 = .error e ∧ isProxyAuthError e = true ∧
       request f = (.proxyAuthWrapped (errMessage e), [.attempt 1])) ∨
    (∃ e, f 1 = .error e ∧ isProxyAuthError e = false ∧
       isRetryableError e = false ∧ request f = (.err e, [.attempt 1])) ∨
    (∃ e r, f 1 = .error e ∧ isProxyAuthError e = false ∧
       isRetryableError e = true ∧ f 2 = .ok r ∧
       request f =
         (.ok r, [.attempt 1, .sleep (1000 * 2 ^ (1 - 1)), .attempt 2])) ∨
    (∃ e e2, f 1 = .error e ∧ isProxyAuthError e = false ∧
       isRetryableError e = true ∧ f 2 = .error e2 ∧
       ((isProxyAuthError e2 = true ∧
           request f = (.proxyAuthWrapped (errMessage e2),
             [.attempt 1, .sleep (1000 * 2 ^ (1 - 1)), .attempt 2])) ∨
        (isProxyAuthError e2 = false ∧
           request f = (.err e2,
             [.attempt 1, .sleep (1000 * 2 ^ (1 - 1)), .attempt 2])))) := by
  cases h1 : f 1 with
  | ok r =>
      exact Or.inl ⟨r, rfl, by simp [request, requestAux, maxAttempts, h1]⟩
  | error e =>
      by_cases hp : isProxyAuthError e = true
      · exact Or.inr (Or.inl ⟨e, rfl, hp,
          by simp [request, requestAux, maxAttempts, h1, hp]⟩)
      · rw [Bool.not_eq_true] at hp
        by_cases hr : isRetryableError e = true
        · cases h2 : f 2 with
          | ok r2 =>
              refine Or.inr (Or.inr (Or.inr (Or.inl ⟨e, r2, rfl, hp, hr, rfl, ?_⟩)))
              simp [request, requestAux, maxAttempts, h1, hp, hr, h2]
          | error e2 =>
              refine Or.inr (Or.inr (Or.inr (Or.inr ⟨e, e2, rfl, hp, hr, rfl, ?_⟩)))
              by_cases hp2 : isProxyAuthError e2 = true
              · exact Or.inl ⟨hp2,
                  by simp [request, requestAux, maxAttempts, h1, hp, hr, h2, hp2]⟩
              · rw [Bool.not_eq_true] at hp2
                exact Or.inr ⟨hp2,
                  by simp [request, requestAux, maxAttempts, h1, hp, hr, h2, hp2]⟩
        · rw [Bool.not_eq_true] at hr
          exact Or.inr (Or.inr (Or.inl ⟨e, rfl, hp, hr,
            by simp [request, requestAux, maxAttempts, h1, hp, hr]⟩))

/-- An HTTP 407 proxy-authentication error as axios raises it. -/
def e407 : AxErr :=
  { code := none, causeCode := none,
    message := some "Request failed with status code 407", status := some 407 }

/-- A request whose single attempt fails with the 407 error. -/
def f407 : Nat → Except AxErr Nat := fun _ => .error e407

/-- C3 counterexample: when the (only) attempt fails with HTTP 407, the
wrapper does not reject with the error raised by that attempt — it rejects
with a freshly fabricated proxy-authentication error instead. -/
theorem request_counterexample :
    f407 1 = Except.error e407 ∧
    countAttempts (request f407).2 = 1 ∧
    (request f407).1 ≠ ReqResult.err e407 ∧
    (request f407).1 =
      ReqResult.proxyAuthWrapped "Request failed with status code 407" :=
  ⟨rfl, by decide, by decide, by decide⟩

/-- C3 (amended): at most `maxAttempts = 2` attempts are made; when every
attempt fails the wrapper rejects with the error raised by the last attempt
— except that a final HTTP 407 proxy-authentication failure is wrapped into
a fabricated descriptive error carrying the attempt error's message. -/
theorem request_bounded_lastError (f : Nat → Except AxErr Nat) :
    countAttempts (request f).2 ≤ maxAttempts ∧
    (∀ e, (request f).1 = ReqResult.err e →
       f (countAttempts (request f).2) = Except.error e) ∧
    (∀ d, (request f).1 = ReqResult.proxyAuthWrapped d →
       ∃ e, f (countAttempts (request f).2) = Except.error e ∧
         isProxyAuthError e = true ∧ d = errMessage e) := by
  rcases request_spec f with ⟨r, h1, heq⟩ | ⟨e, h1, hp, heq⟩ |
    ⟨e, h1, hp, hr, heq⟩ | ⟨e, r, h1, hp, hr, h2, heq⟩ |
    ⟨e, e2, h1, hp, hr, h2, hcase⟩
  · refine ⟨?_, ?_, ?_⟩ <;> simp [heq, countAttempts, maxAttempts]
  · refine ⟨?_, ?_, ?_⟩
    · simp [heq, countAttempts, maxAttempts]
    · intro e' he'
      rw [heq] at he'
      simp at he'
    · intro d hd
      rw [heq] at hd
      simp at hd
      exact ⟨e, by simpa [heq, countAttempts] using h1, hp, hd.symm⟩
  · refine ⟨?_, ?_, ?_⟩
    · simp [heq, countAttempts, maxAttempts]
    · intro e' he'
      rw [heq] at he'
      simp at he'
      subst he'
      simpa [heq, countAttempts] using h1
    · intro d hd
      rw [heq] at hd
      simp at hd
  · refine ⟨?_, ?_, ?_⟩
    · simp [heq, countAttempts, maxAttempts]
    · intro e' he'
      rw [heq] at he'
      simp at he'
    · intro d hd
      rw [heq] at hd
      simp at hd
  · rcases hcase with ⟨hp2, heq⟩ | ⟨hp2, heq⟩
    · refine ⟨?_, ?_, ?_⟩
      · simp [heq, countAttempts, maxAttempts]
      · intro e' he'
        rw [heq] at he'
        simp at he'
      · intro d hd
        rw [heq] at hd
        simp at hd
        exact ⟨e2, by simpa [heq, countAttempts] using h2, hp2, hd.symm⟩
    · refine ⟨?_, ?_, ?_⟩
      · simp [heq, countAttempts, maxAttempts]
      · intro e' he'
        rw [heq] at he'
        simp at he'
        subst he'
        simpa [heq, countAttempts] using h2
      · intro d hd
        rw [heq] at hd
        simp at hd

/-- A retryable network timeout error. -/
def eTimeout : AxErr :=
  { code := some "ETIMEDOUT", causeCode := none,
    message := some "connect timed out", status := none }

/-- A non-retryable application error. -/
def eFatal : AxErr :=
  { code := some "EAUTH", causeCode := none,
    message := some "bad credentials", status := none }

/-- A request that fails every attempt with the timeout error. -/
def fBothFail : Nat → Except AxErr Nat := fun _ => .error eTimeout

/-- A request that fails every attempt with the non-retryable error. -/
def fFatal : Nat → Except AxErr Nat := fun _ => .error eFatal

/-- Witness for C3's amended theorem: both attempts fail with the timeout
error, exactly 2 attempts are made, and the rejection carries the error of
attempt 2. -/
theorem request_bounded_lastError_witness :
    countAttempts (request fBothFail).2 ≤ maxAttempts ∧
    fBothFail (countAttempts (request fBothFail).2) = Except.error eTimeout :=
  ⟨(request_bounded_lastError fBothFail).1,
   (request_bounded_lastError fBothFail).2.1 eTimeout (by decide)⟩

/-- C4 counterexample: the 407 error with a plain axios message is
non-retryable under the claim's predicate, yet the wrapper does not rethrow
it — it throws the fabricated proxy-authentication error instead, so
"a non-retryable error is rethrown immediately" fails at this input. -/
theorem request_retry_counterexample :
    isRetryableError e407 = false ∧
    f407 1 = Except.error e407 ∧
    (request f407).1 ≠ ReqResult.err e407 ∧
    (request f407).1 =
      ReqResult.proxyAuthWrapped "Request failed with status code 407" :=
  ⟨by decide, rfl, by decide, by decide⟩

/-- C4 (amended): a second attempt happens only when the first attempt's
error satisfies the retryability predicate and is not an HTTP 407, and the
backoff slept before retry attempt 2 is `1000 * 2^(1-1)` ms; a
non-retryable, non-407 error is rethrown immediately with a single attempt
made; an HTTP 407 error is — also immediately, with no further attempt —
wrapped into the fabricated proxy-authentication error rather than
rethrown. -/
theorem request_retry_predicate (f : Nat → Except AxErr Nat) :
    (ReqEvent.attempt 2 ∈ (request f).2 →
       ∃ e, f 1 = Except.error e ∧ isRetryableError e = true ∧
         isProxyAuthError e = false ∧
         (request f).2 =
           [.attempt 1, .sleep (1000 * 2 ^ (1 - 1)), .attempt 2]) ∧
    (∀ e, f 1 = Except.error e → isRetryableError e = false →
       isProxyAuthError e = false →
       request f = (ReqResult.err e, [.attempt 1])) ∧
    (∀ e, f 1 = Except.error e → isProxyAuthError e = true →
       request f =
         (ReqResult.proxyAuthWrapped (errMessage e), [.attempt 1])) := by
  rcases request_spec f with ⟨r, h1, heq⟩ | ⟨e, h1, hp, heq⟩ |
    ⟨e, h1, hp, hr, heq⟩ | ⟨e, r, h1, hp, hr, h2, heq⟩ |
    ⟨e, e2, h1, hp, hr, h2, hcase⟩
  · refine ⟨?_, ?_, ?_⟩
    · intro hmem
      rw [heq] at hmem
      simp at hmem
    · intro e' h1'
      rw [h1] at h1'
      cases h1'
    · intro e' h1'
      rw [h1] at h1'
      cases h1'
  · refine ⟨?_, ?_, ?_⟩
    · intro hmem
      rw [heq] at hmem
      simp at hmem
    · intro e' h1' hr' hp'
      rw [h1] at h1'
      simp at h1'
      subst h1'
      rw [hp] at hp'
      cases hp'
    · intro e' h1' _
      rw [h1] at h1'
      simp at h1'
      subst h1'
      exact heq
  · refine ⟨?_, ?_, ?_⟩
    · intro hmem
      rw [heq] at hmem
      simp at hmem
    · intro e' h1' hr' hp'
      rw [h1] at h1'
      simp at h1'
      subst h1'
      exact heq
    · intro e' h1' hp'
      rw [h1] at h1'
      simp at h1'
      subst h1'
      rw [hp] at hp'
      cases hp'
  · refine ⟨?_, ?_, ?_⟩
    · intro _
      exact ⟨e, h1, hr, hp, by simp [heq]⟩
    · intro e' h1' hr' hp'
      rw [h1] at h1'
      simp at h1'
      subst h1'
      rw [hr] at hr'
      cases hr'
    · intro e' h1' hp'
      rw [h1] at h1'
      simp at h1'
      subst h1'
      rw [hp] at hp'
      cases hp'
  · refine ⟨?_, ?_, ?_⟩
    · intro _
      rcases hcase with ⟨hp2, heq⟩ | ⟨hp2, heq⟩ <;>
        exact ⟨e, h1, hr, hp, by simp [heq]⟩
    · intro e' h1' hr' hp'
      rw [h1] at h1'
      simp at h1'
      subst h1'
      rw [hr] at hr'
      cases hr'
    · intro e' h1' hp'
      rw [h1] at h1'
      simp at h1'
      subst h1'
      rw [hp] at hp'
      cases hp'

/-- Witness for C4's amended theorem: the timeout error triggers exactly
one retry with the 1000 ms backoff; the non-retryable error is rethrown
after one attempt; the 407 error is wrapped after one attempt. -/
theorem request_retry_predicate_witness :
    (∃ e, fBothFail 1 = Except.error e ∧ isRetryableError e = true ∧
       isProxyAuthError e = false ∧
       (request fBothFail).2 =
         [.attempt 1, .sleep (1000 * 2 ^ (1 - 1)), .attempt 2]) ∧
    request fFatal = (ReqResult.err eFatal, [.attempt 1]) ∧
    request f407 =
      (ReqResult.proxyAuthWrapped (errMessage e407), [.attempt 1]) :=
  ⟨(request_retry_predicate fBothFail).1 (by decide),
   (request_retry_predicate fFatal).2.1 eFatal rfl (by decide) (by decide),
   (request_retry_predicate f407).2.2 e407 rfl (by decide)⟩

end RewardsBot
